import Mathlib

/-!
Shallow embedding of the backend-erased XR session / frame / swapchain
lifecycle core of `crates/bevy_openxr/src/resources.rs`, together with models
of the graphics-backend machinery the file uses.  The `graphics`, `error` and
`types` modules of the crate are not shipped with the sources here; each
definition taken from them is modelled from the specification and marked as
such in its doc comment.  Everything else is translated directly from
`resources.rs`.
-/

namespace BevyOxr

/-- Modelled from the spec: the closed set of native graphics backends
(`GraphicsBackend` in the missing `graphics` module).  The spec (§3) names
Vulkan, D3D11, D3D12, OpenGLES and Metal as example variants of the small
closed set. -/
inductive GraphicsBackend : Type where
  | Vulkan
  | D3D11
  | D3D12
  | OpenGLES
  | Metal
  deriving DecidableEq

/-- Modelled from the spec: the human-readable name of a backend, as used by
`graphics_name()` in the missing `graphics` module when formatting
`GraphicsBackendMismatch` errors and exclusion warnings. -/
def GraphicsBackend.graphics_name : GraphicsBackend → String
  | .Vulkan => "Vulkan"
  | .D3D11 => "D3D11"
  | .D3D12 => "D3D12"
  | .OpenGLES => "OpenGLES"
  | .Metal => "Metal"

/-- Modelled from the spec: `XrExtensions` (missing `types` module) is "a set
of named runtime capability flags (bitwise union/difference)".  We model the
flag set as a list of flag names with membership semantics. -/
def XrExtensions : Type := List String

/-- Membership of a named capability flag in an extension set. -/
def XrExtensions.memFlag (x : XrExtensions) (e : String) : Bool :=
  List.contains x e

/-- Modelled from the spec: bitwise union of two extension sets (the `|`
operator used in `create_instance`). -/
def XrExtensions.union (a b : XrExtensions) : XrExtensions :=
  List.append a b

/-- Extension-set inclusion: every flag of `a` is present in `b`. -/
def XrExtensions.subset (a b : XrExtensions) : Bool :=
  List.all a (fun e => XrExtensions.memFlag b e)

/-- Modelled from the spec: the error taxonomy (`XrError` in the missing
`error` module): availability errors, backend-mismatch errors (naming both
backends), conversion errors and verbatim native-runtime errors. -/
inductive XrError : Type where
  | UnavailableBackend (backend : GraphicsBackend)
  | GraphicsBackendMismatch (item : String) (backend : String)
      (expected_backend : String)
  | ConversionError (msg : String)
  | NativeError (code : Nat)
  deriving DecidableEq

/-- Application name plus version (`AppInfo` from the missing `types`
module); the version is stored as the packed `to_u32` number. -/
structure AppInfo : Type where
  name : String
  version : Nat
  deriving DecidableEq

/-- Modelled from the spec: the Erased Backend Container (`GraphicsWrap<T>`
in the missing `graphics` module): a closed tagged union holding exactly one
backend-specialised instantiation of a backend-generic object kind, tagged
with the `BackendKind` that produced it.  `Inner` plays the role of
`GraphicsType::Inner<G>`. -/
inductive GraphicsWrap (Inner : GraphicsBackend → Type) : Type where
  | wrap (b : GraphicsBackend) (payload : Inner b)

/-- The tag of an erased container. -/
def GraphicsWrap.backend {Inner : GraphicsBackend → Type} :
    GraphicsWrap Inner → GraphicsBackend
  | .wrap b _ => b

/-- Modelled from the spec: the backend-membership query used for
validation and filtering (`using_graphics::<Api>()`); it inspects only the
tag, never the payload. -/
def GraphicsWrap.using_graphics {Inner : GraphicsBackend → Type}
    (w : GraphicsWrap Inner) (b : GraphicsBackend) : Bool :=
  decide (w.backend = b)

/-- Modelled from the spec: the value-level backend-membership query
(`using_graphics_of_val`) comparing the container's tag against a
`GraphicsBackend` value. -/
def GraphicsWrap.using_graphics_of_val {Inner : GraphicsBackend → Type}
    (w : GraphicsWrap Inner) (b : GraphicsBackend) : Bool :=
  decide (w.backend = b)

/-- The backend name carried by an erased container's tag
(`GraphicsWrap::graphics_name`). -/
def GraphicsWrap.graphics_name {Inner : GraphicsBackend → Type}
    (w : GraphicsWrap Inner) : String :=
  w.backend.graphics_name

/-- Model of `openxr::SystemId`, treated as an opaque handle. -/
abbrev SystemId : Type := Nat

/-- Model of `openxr::Time`, an opaque timestamp. -/
abbrev XrDisplayTime : Type := Int

/-- Model of `openxr::Duration`, an opaque timeout value for `wait_image`. -/
abbrev XrDuration : Type := Int

/-- Model of `openxr::EnvironmentBlendMode`, treated as opaque. -/
abbrev BlendMode : Type := Nat

/-- A native composition-layer submission header
(`openxr::sys::CompositionLayerBaseHeader`), treated as opaque. -/
abbrev LayerHeader : Type := Nat

/-- A native (backend-side) swapchain format code, treated as opaque. -/
abbrev NativeFormat : Type := Nat

/-- An engine-side texture format (`wgpu::TextureFormat`), treated as
opaque. -/
abbrev WgpuFormat : Type := Nat

/-- Model of `SwapchainCreateInfo` from the missing `types` module, treated as
opaque; only its fallible conversion to a native create-info matters here. -/
abbrev SwapchainCreateInfo : Type := Nat

/-- A backend's native swapchain create-info, treated as opaque. -/
abbrev NativeSwapchainCreateInfo : Type := Nat

/-- The backend-specific session-creation parameters
(`GraphicsExt::SessionCreateInfo`), treated as an opaque per-backend blob of
native handles. -/
abbrev SessionCreateInfoOf : GraphicsBackend → Type := fun _ => Nat

/-- Modelled from the spec: the native swapchain's acquire/wait/release
cycle position.  The cycle itself is implemented by the external `openxr`
layer; §4.6 specifies it as the standard strict acquire → wait → release
cycle. -/
inductive SwapPhase : Type where
  | idle
  | acquired
  | waited
  deriving DecidableEq

/-- The native swapchain object: in this model its observable content is its
position in the acquire/wait/release cycle. -/
abbrev NativeSwapchain : Type := SwapPhase

/-- Modelled from the spec: the native `acquire_image` call.  It reserves
the next image when no acquire is outstanding; out-of-cycle calls fail with
a native-runtime error, propagated verbatim. -/
def nativeAcquireImage : NativeSwapchain → Except XrError (Nat × NativeSwapchain)
  | .idle => .ok (0, .acquired)
  | _ => .error (.NativeError 1)

/-- Modelled from the spec: the native `wait_image` call.  It succeeds on a
previously acquired (and not yet waited) image; without a prior unmatched
acquire it fails with a native-runtime error. -/
def nativeWaitImage (_timeout : XrDuration) :
    NativeSwapchain → Except XrError NativeSwapchain
  | .acquired => .ok .waited
  | _ => .error (.NativeError 2)

/-- Modelled from the spec: the native `release_image` call.  It returns the
waited image to the runtime, completing the cycle; without a prior unmatched
acquire (or before the wait) it fails with a native-runtime error. -/
def nativeReleaseImage : NativeSwapchain → Except XrError NativeSwapchain
  | .waited => .ok .idle
  | _ => .error (.NativeError 3)

/-- The native session object (`openxr::Session<G>`): modelled by the
responses it gives to the calls this core makes on it. -/
structure NativeSession : Type where
  enumerate_swapchain_formats : Except XrError (List NativeFormat)
  create_swapchain : NativeSwapchainCreateInfo → Except XrError NativeSwapchain

/-- The native frame waiter (`openxr::FrameWaiter`), treated as opaque. -/
abbrev NativeFrameWaiter : Type := Nat

/-- The native frame stream (`openxr::FrameStream<G>`): modelled by its
response to the native end-frame call, as a function of the display time,
blend mode and the submitted layer headers. -/
abbrev NativeFrameStream : Type :=
  XrDisplayTime → BlendMode → List LayerHeader → Except XrError Unit

/-- The native instance (`openxr::Instance`): modelled by its response to
the native session-creation call for each backend. -/
structure NativeInstance : Type where
  create_session : (b : GraphicsBackend) → SystemId → SessionCreateInfoOf b →
    Except XrError (NativeSession × NativeFrameWaiter × NativeFrameStream)

/-- Modelled from the spec: the per-backend data of the missing `graphics`
module — each backend's mandatory extension set (`required_exts`), its
native-format → engine-format conversion (`to_wgpu_format`, `None` when the
format has no engine-side equivalent), and the fallible conversion of a
`SwapchainCreateInfo` into the backend's native create-info (`try_into`). -/
structure GraphicsConfig : Type where
  required_exts : GraphicsBackend → XrExtensions
  to_wgpu_format : GraphicsBackend → NativeFormat → Option WgpuFormat
  swapchain_info_into : GraphicsBackend → SwapchainCreateInfo →
    Except XrError NativeSwapchainCreateInfo

/-- Modelled from the spec: `GraphicsBackend::is_available` tests whether
the backend's required extensions are all present in the enumerated set. -/
def GraphicsBackend.is_available (cfg : GraphicsConfig) (b : GraphicsBackend)
    (available_exts : XrExtensions) : Bool :=
  XrExtensions.subset (cfg.required_exts b) available_exts

/-- Model of `XrEntry` (`resources.rs`): wraps the native runtime loader, modelled by
the responses of the two native calls `create_instance` makes through it. -/
structure XrEntry : Type where
  enumerate_extensions_native : Except XrError XrExtensions
  create_instance_native : AppInfo → XrExtensions → List String →
    Except XrError NativeInstance

/-- Model of `XrEntry::enumerate_extensions` (`resources.rs`): queries the native
runtime and converts the result. -/
def XrEntry.enumerate_extensions (e : XrEntry) : Except XrError XrExtensions :=
  e.enumerate_extensions_native

/-- Model of `XrInstance` (`resources.rs`): the native instance handle, the fixed
backend it was created with, and the `AppInfo` used. -/
structure XrInstance : Type where
  native : NativeInstance
  backend : GraphicsBackend
  app_info : AppInfo

/-- Model of `XrEntry::create_instance` (`resources.rs`, lines 20–47): enumerates
extensions, rejects an unavailable backend, unions the requested extensions
with the backend's required extensions, and asks the native runtime to
create the instance. -/
def XrEntry.create_instance (cfg : GraphicsConfig) (e : XrEntry)
    (app_info : AppInfo) (exts : XrExtensions) (layers : List String)
    (backend : GraphicsBackend) : Except XrError XrInstance :=
  match e.enumerate_extensions with
  | .error err => .error err
  | .ok available_exts =>
    if !(backend.is_available cfg available_exts) then
      .error (XrError.UnavailableBackend backend)
    else
      let required_exts := XrExtensions.union exts (cfg.required_exts backend)
      match e.create_instance_native app_info required_exts layers with
      | .error err => .error err
      | .ok inst => .ok ⟨inst, backend, app_info⟩

/-- Model of `XrSessionGraphicsInfo` (`resources.rs`): the erased, tagged
session-creation parameters produced by `init_graphics`. -/
structure XrSessionGraphicsInfo : Type where
  val : GraphicsWrap SessionCreateInfoOf

/-- Model of `XrSession` (`resources.rs`): the widened "any backend" view of the
native session plus the erased specialised view. -/
structure XrSession : Type where
  any_graphics : NativeSession
  wrap : GraphicsWrap (fun _ => NativeSession)

/-- The `From<openxr::Session<G>>` impl for `XrSession` (`resources.rs`,
lines 120–124): widens the session and pairs it with its erased view tagged
by the backend that produced it. -/
def XrSession.ofNative (b : GraphicsBackend) (s : NativeSession) : XrSession :=
  ⟨s, .wrap b s⟩

/-- Model of `XrFrameWaiter` (`resources.rs`): exclusively owned native pacing
handle. -/
structure XrFrameWaiter : Type where
  val : NativeFrameWaiter

/-- Model of `XrFrameStream` (`resources.rs`): the erased, shared, mutex-guarded
per-session frame stream (the mutex is modelled away by the sequential
embedding). -/
structure XrFrameStream : Type where
  val : GraphicsWrap (fun _ => NativeFrameStream)

/-- Model of `XrSwapchain` (`resources.rs`): the erased, shared, mutex-guarded native
swapchain. -/
structure XrSwapchain : Type where
  val : GraphicsWrap (fun _ => NativeSwapchain)

/-- The `item` string of the mismatch error in `create_session`
(`std::any::type_name::<XrSessionGraphicsInfo>()`). -/
def xrSessionGraphicsInfoTypeName : String :=
  "bevy_openxr::resources::XrSessionGraphicsInfo"

/-- Model of `XrInstance::create_session` (`resources.rs`, lines 81–100): checks that
the graphics info's tag matches the instance's backend, failing with
`GraphicsBackendMismatch` naming both backends; on a match it dispatches to
the backend-specific native session creation and wraps the results. -/
def XrInstance.create_session (inst : XrInstance) (system_id : SystemId)
    (info : XrSessionGraphicsInfo) :
    Except XrError (XrSession × XrFrameWaiter × XrFrameStream) :=
  if !(info.val.using_graphics_of_val inst.backend) then
    .error (XrError.GraphicsBackendMismatch xrSessionGraphicsInfoTypeName
      info.val.graphics_name inst.backend.graphics_name)
  else
    match info.val with
    | .wrap b i =>
      match inst.native.create_session b system_id i with
      | .error err => .error err
      | .ok (session, frame_waiter, frame_stream) =>
        .ok (XrSession.ofNative b session, ⟨frame_waiter⟩,
          ⟨.wrap b frame_stream⟩)

/-- Model of `XrSession::enumerate_swapchain_formats` (`resources.rs`, lines
127–132): dispatches on the session's backend, asks the native session for
its formats and keeps those with an engine-side equivalent. -/
def XrSession.enumerate_swapchain_formats (cfg : GraphicsConfig)
    (s : XrSession) : Except XrError (List WgpuFormat) :=
  match s.wrap with
  | .wrap b session =>
    match session.enumerate_swapchain_formats with
    | .error err => .error err
    | .ok formats => .ok (formats.filterMap (cfg.to_wgpu_format b))

/-- Model of `XrSession::create_swapchain` (`resources.rs`, lines 134–139):
dispatches on the session's backend, converts the create-info, creates the
native swapchain and wraps it tagged with the session's backend. -/
def XrSession.create_swapchain (cfg : GraphicsConfig) (s : XrSession)
    (info : SwapchainCreateInfo) : Except XrError XrSwapchain :=
  match s.wrap with
  | .wrap b session =>
    match cfg.swapchain_info_into b info with
    | .error err => .error err
    | .ok native_info =>
      match session.create_swapchain native_info with
      | .error err => .error err
      | .ok sc => .ok ⟨.wrap b sc⟩

/-- A composition layer (`layer_builder::CompositionLayer` trait object):
exposes its native submission header and, if applicable, the swapchain it
was built from. -/
structure CompositionLayer : Type where
  swapchain : Option XrSwapchain
  header : LayerHeader

/-- The warning text emitted by `XrFrameStream::end` for a mismatched
composition layer (`resources.rs`, lines 172–176). -/
def mismatchWarning (i : Nat) (layer_api expected_api : String) : String :=
  "Composition layer " ++ toString i ++ " is using graphics api '" ++
    layer_api ++ "', expected graphics api '" ++ expected_api ++
    "'. Excluding layer from frame submission."

/-- The layer loop of `XrFrameStream::end` (`resources.rs`, lines 169–181),
with the running `enumerate` index made explicit: a layer backed by a
swapchain of a different backend is skipped and a warning recorded; every
other layer's header is appended.  Returns the warnings and the headers
handed to the native end-frame call. -/
def endLayerLoop (b : GraphicsBackend) :
    Nat → List CompositionLayer → List String × List LayerHeader
  | _, [] => ([], [])
  | i, layer :: rest =>
    match layer.swapchain with
    | some sc =>
      if !(sc.val.using_graphics b) then
        let (ws, hs) := endLayerLoop b (i + 1) rest
        (mismatchWarning i sc.val.graphics_name b.graphics_name :: ws, hs)
      else
        let (ws, hs) := endLayerLoop b (i + 1) rest
        (ws, layer.header :: hs)
    | none =>
      let (ws, hs) := endLayerLoop b (i + 1) rest
      (ws, layer.header :: hs)

/-- Model of `XrFrameStream::end` (`resources.rs`, lines 157–187): filters the
candidate layers through the backend check and submits the survivors to the
native end-frame call.  The emitted warnings are returned alongside the
native result. -/
def XrFrameStream.endFrame (fs : XrFrameStream) (display_time : XrDisplayTime)
    (environment_blend_mode : BlendMode) (layers : List CompositionLayer) :
    List String × Except XrError Unit :=
  match fs.val with
  | .wrap b stream =>
    let (warnings, new_layers) := endLayerLoop b 0 layers
    (warnings, stream display_time environment_blend_mode new_layers)

/-- Whether a composition layer passes the backend check of
`XrFrameStream::end` against stream backend `b`: a layer with no backing
swapchain is not checked at all, a backed layer passes when its swapchain's
tag is `b`. -/
def layerCompatible (b : GraphicsBackend) (layer : CompositionLayer) : Bool :=
  match layer.swapchain with
  | some sc => sc.val.using_graphics b
  | none => true

/-- Model of `XrSwapchain::acquire_image` (`resources.rs`, lines 200–205): locks the
native swapchain and delegates; in the sequential model the mutated native
object is returned as the new swapchain value. -/
def XrSwapchain.acquire_image (sw : XrSwapchain) :
    Except XrError (Nat × XrSwapchain) :=
  match sw.val with
  | .wrap b swap =>
    match nativeAcquireImage swap with
    | .error err => .error err
    | .ok (i, swap2) => .ok (i, ⟨.wrap b swap2⟩)

/-- Model of `XrSwapchain::wait_image` (`resources.rs`, lines 207–212): locks the
native swapchain and delegates. -/
def XrSwapchain.wait_image (sw : XrSwapchain) (timeout : XrDuration) :
    Except XrError XrSwapchain :=
  match sw.val with
  | .wrap b swap =>
    match nativeWaitImage timeout swap with
    | .error err => .error err
    | .ok swap2 => .ok ⟨.wrap b swap2⟩

/-- Model of `XrSwapchain::release_image` (`resources.rs`, lines 214–219): locks the
native swapchain and delegates. -/
def XrSwapchain.release_image (sw : XrSwapchain) : Except XrError XrSwapchain :=
  match sw.val with
  | .wrap b swap =>
    match nativeReleaseImage swap with
    | .error err => .error err
    | .ok swap2 => .ok ⟨.wrap b swap2⟩

/-- A store of shared atomic boolean cells, modelling the heap of
`Arc<AtomicBool>` allocations; the sequential embedding of the `SeqCst`
accesses is plain reads and writes. -/
abbrev SharedBoolStore : Type := Nat → Bool

/-- Model of `XrSessionStarted` (`resources.rs`, lines 284–295): a clonable handle to
one shared atomic boolean cell, identified here by its address in the
store. -/
structure XrSessionStarted : Type where
  cell : Nat

/-- The derived `Clone` impl of `XrSessionStarted`: cloning the `Arc` yields
a handle to the same underlying cell. -/
def XrSessionStarted.clone (s : XrSessionStarted) : XrSessionStarted :=
  ⟨s.cell⟩

/-- The derived `Default` impl of `XrSessionStarted`:
`Arc::new(AtomicBool::new(false))` — allocates a fresh cell holding
`false`. -/
def XrSessionStarted.mkDefault (fresh : Nat) (σ : SharedBoolStore) :
    XrSessionStarted × SharedBoolStore :=
  (⟨fresh⟩, fun c => if c = fresh then false else σ c)

/-- Model of `XrSessionStarted::set` (`resources.rs`): stores `val` into the shared
cell. -/
def XrSessionStarted.set (s : XrSessionStarted) (σ : SharedBoolStore)
    (val : Bool) : SharedBoolStore :=
  fun c => if c = s.cell then val else σ c

/-- Model of `XrSessionStarted::get` (`resources.rs`): loads the shared cell. -/
def XrSessionStarted.get (s : XrSessionStarted) (σ : SharedBoolStore) : Bool :=
  σ s.cell

/-- An observer used to state failure without fixing the exact error
payload. -/
def exceptIsError {ε α : Type} : Except ε α → Bool
  | .error _ => true
  | .ok _ => false

/-! Concrete fixtures used to evaluate the theorems on closed inputs. -/

/-- A native frame stream that accepts every submission. -/
def wStreamOk : NativeFrameStream := fun _ _ _ => .ok ()

/-- A native session answering with formats `[5, 6]` and fresh idle
swapchains. -/
def wNativeSession : NativeSession :=
  ⟨.ok [5, 6], fun _ => .ok .idle⟩

/-- A native instance whose session creation always succeeds. -/
def wNativeInstance : NativeInstance :=
  ⟨fun _ _ _ => .ok (wNativeSession, 0, wStreamOk)⟩

/-- A concrete `AppInfo`. -/
def wAppInfo : AppInfo := ⟨"app", 1⟩

/-- A concrete graphics configuration: every backend requires `extA`, the
native format `5` has no engine equivalent while any other format `f` maps
to `f + 100`, and swapchain create-info conversion is the identity. -/
def wCfg : GraphicsConfig :=
  ⟨fun _ => ["extA"],
   fun _ f => if f = 5 then none else some (f + 100),
   fun _ i => .ok i⟩

/-- An entry whose runtime enumerates no extensions. -/
def wEntryNoAvail : XrEntry := ⟨.ok [], fun _ _ _ => .ok wNativeInstance⟩

/-- An entry whose runtime enumerates `extA` and `extB`. -/
def wEntryAvail : XrEntry :=
  ⟨.ok ["extA", "extB"], fun _ _ _ => .ok wNativeInstance⟩

/-- A concrete instance fixed to the Vulkan backend. -/
def wInstVulkan : XrInstance := ⟨wNativeInstance, .Vulkan, wAppInfo⟩

/-- Session graphics info tagged D3D11 (mismatching `wInstVulkan`). -/
def wInfoD3D11 : XrSessionGraphicsInfo := ⟨.wrap .D3D11 0⟩

/-- Session graphics info tagged Vulkan (matching `wInstVulkan`). -/
def wInfoVulkan : XrSessionGraphicsInfo := ⟨.wrap .Vulkan 0⟩

/-- The session produced by `wInstVulkan.create_session` on matching
info. -/
def wSess : XrSession := XrSession.ofNative .Vulkan wNativeSession

/-- The frame stream produced by `wInstVulkan.create_session` on matching
info. -/
def wFrameStream : XrFrameStream := ⟨.wrap .Vulkan wStreamOk⟩

/-- An idle swapchain tagged Vulkan. -/
def wSwapIdle : XrSwapchain := ⟨.wrap .Vulkan .idle⟩

/-- A composition layer with no backing swapchain. -/
def wLayerNone : CompositionLayer := ⟨none, 7⟩

/-- A composition layer backed by a D3D11-tagged swapchain (foreign to a
Vulkan stream). -/
def wLayerForeign : CompositionLayer := ⟨some ⟨.wrap .D3D11 .idle⟩, 3⟩

/-- A composition layer backed by a Vulkan-tagged swapchain. -/
def wLayerVulkan : CompositionLayer := ⟨some wSwapIdle, 9⟩

/-! Helper lemmas about the layer loop of `XrFrameStream::end`. -/

/-- The headers handed to the native end-frame call are exactly the headers
of the compatible layers, in their original relative order. -/
theorem endLayerLoop_headers (b : GraphicsBackend)
    (layers : List CompositionLayer) : ∀ i : Nat,
    (endLayerLoop b i layers).2 =
      (layers.filter (layerCompatible b)).map (fun l => l.header) := by
  induction layers with
  | nil => intro i; rfl
  | cons layer rest ih =>
    intro i
    cases hs : layer.swapchain with
    | none =>
      simp [endLayerLoop, hs, layerCompatible, ih (i + 1)]
    | some sc =>
      by_cases hc : sc.val.using_graphics b = true
      · simp [endLayerLoop, hs, layerCompatible, hc, ih (i + 1)]
      · rw [Bool.not_eq_true] at hc
        simp [endLayerLoop, hs, layerCompatible, hc, ih (i + 1)]

/-- One warning is recorded per mismatched layer. -/
theorem endLayerLoop_warnings (b : GraphicsBackend)
    (layers : List CompositionLayer) : ∀ i : Nat,
    (endLayerLoop b i layers).1.length =
      (layers.filter (fun l => !(layerCompatible b l))).length := by
  induction layers with
  | nil => intro i; rfl
  | cons layer rest ih =>
    intro i
    cases hs : layer.swapchain with
    | none =>
      simp [endLayerLoop, hs, layerCompatible, ih (i + 1)]
    | some sc =>
      by_cases hc : sc.val.using_graphics b = true
      · simp [endLayerLoop, hs, layerCompatible, hc, ih (i + 1)]
      · rw [Bool.not_eq_true] at hc
        simp [endLayerLoop, hs, layerCompatible, hc, ih (i + 1)]

/-! Claim theorems. -/

/-- C6: querying backend-membership for `b2` on an erased container
constructed with tag `b1` returns true exactly when `b1 = b2` (for both the
type-level `using_graphics` query and the value-level
`using_graphics_of_val` query), and the answer is computed from the tag
alone — it is identical for any two payloads, i.e. the payload is never
un-erased. -/
theorem using_graphics_matches_tag {Inner : GraphicsBackend → Type}
    (b1 b2 : GraphicsBackend) (x y : Inner b1) :
    (GraphicsWrap.wrap b1 x).using_graphics b2 = decide (b1 = b2)
    ∧ (GraphicsWrap.wrap b1 x).using_graphics_of_val b2 = decide (b1 = b2)
    ∧ (GraphicsWrap.wrap b1 x).using_graphics b2 =
        (GraphicsWrap.wrap b1 y).using_graphics b2 :=
  ⟨rfl, rfl, rfl⟩

/-- C8: the swapchain acquire → wait → release cycle is strict: `wait_image`
and `release_image` on a swapchain with no unmatched acquire fail with an
error; `acquire_image` succeeds from the idle state, the acquired image can
be waited on and released, and release returns the swapchain to the idle
state, in which a new `acquire_image` succeeds again. -/
theorem swapchain_strict_cycle (b : GraphicsBackend) (timeout : XrDuration) :
    exceptIsError ((XrSwapchain.mk (.wrap b .idle)).wait_image timeout) = true
    ∧ exceptIsError ((XrSwapchain.mk (.wrap b .idle)).release_image) = true
    ∧ (XrSwapchain.mk (.wrap b .idle)).acquire_image =
        .ok (0, ⟨.wrap b .acquired⟩)
    ∧ (XrSwapchain.mk (.wrap b .acquired)).wait_image timeout =
        .ok ⟨.wrap b .waited⟩
    ∧ (XrSwapchain.mk (.wrap b .waited)).release_image = .ok ⟨.wrap b .idle⟩ :=
  ⟨rfl, rfl, rfl, rfl, rfl⟩

/-- C10: a default-constructed session-started flag reads false; setting a
value through the flag or any clone of it is observed by a get through the
flag or any clone — clones address the same underlying cell. -/
theorem session_started_shared_flag (fresh : Nat) (σ σ0 : SharedBoolStore)
    (v : Bool) (s : XrSessionStarted) :
    ((XrSessionStarted.mkDefault fresh σ).1).get
        ((XrSessionStarted.mkDefault fresh σ).2) = false
    ∧ (s.clone).get (s.set σ0 v) = v
    ∧ s.get ((s.clone).set σ0 v) = v
    ∧ s.clone.cell = s.cell := by
  refine ⟨?_, ?_, ?_, rfl⟩
  · simp [XrSessionStarted.mkDefault, XrSessionStarted.get]
  · simp [XrSessionStarted.clone, XrSessionStarted.get, XrSessionStarted.set]
  · simp [XrSessionStarted.clone, XrSessionStarted.get, XrSessionStarted.set]

/-- C2: `XrFrameStream::end` on a stream tagged `b` never aborts because of
mismatched layers: it records exactly one warning per layer whose swapchain
has a different backend, and hands the native end-frame call exactly the
headers of the remaining layers, in their original relative order; the
call's result is the native call's result on those layers. -/
theorem endFrame_filters_mismatched_layers (b : GraphicsBackend)
    (stream : NativeFrameStream) (t : XrDisplayTime) (bm : BlendMode)
    (layers : List CompositionLayer) :
    ((XrFrameStream.mk (.wrap b stream)).endFrame t bm layers).1.length =
        (layers.filter (fun l => !(layerCompatible b l))).length
    ∧ ((XrFrameStream.mk (.wrap b stream)).endFrame t bm layers).2 =
        stream t bm ((layers.filter (layerCompatible b)).map (fun l => l.header)) := by
  constructor
  · simpa [XrFrameStream.endFrame] using endLayerLoop_warnings b layers 0
  · simp [XrFrameStream.endFrame, endLayerLoop_headers b layers 0]

/-- C1: `create_session` with graphics info whose tag differs from the
instance's backend fails with a `GraphicsBackendMismatch` error naming both
the actual and the expected backend.  The equation holds for every
`XrInstance` — in particular for every behaviour of the native
session-creation call — so no native call is consulted and no session, frame
waiter or frame stream is produced. -/
theorem create_session_backend_mismatch (inst : XrInstance)
    (system_id : SystemId) (info : XrSessionGraphicsInfo)
    (h : info.val.backend ≠ inst.backend) :
    inst.create_session system_id info =
      .error (XrError.GraphicsBackendMismatch xrSessionGraphicsInfoTypeName
        info.val.graphics_name inst.backend.graphics_name) := by
  unfold XrInstance.create_session
  simp [GraphicsWrap.using_graphics_of_val, h]

/-- Witness for C1: a Vulkan instance whose native layer would happily
create a session still rejects D3D11-tagged graphics info with the mismatch
error naming D3D11 (actual) and Vulkan (expected). -/
theorem create_session_backend_mismatch_witness :
    wInfoD3D11.val.backend ≠ wInstVulkan.backend
    ∧ wInstVulkan.create_session 0 wInfoD3D11 =
        .error (XrError.GraphicsBackendMismatch xrSessionGraphicsInfoTypeName
          "D3D11" "Vulkan") :=
  ⟨by decide,
   by exact create_session_backend_mismatch wInstVulkan 0 wInfoD3D11 (by decide)⟩

/-- C3: when the runtime's enumeration succeeds, `create_instance` fails
with `UnavailableBackend(backend)` whenever the backend's required
extensions are not all enumerated — for every behaviour of the native
instance-creation call, so the failure precedes any native allocation — and
whenever they are all enumerated and the native creation succeeds it returns
an instance tagged with that backend. -/
theorem create_instance_availability (cfg : GraphicsConfig) (e : XrEntry)
    (app_info : AppInfo) (exts : XrExtensions) (layers : List String)
    (backend : GraphicsBackend) (avail : XrExtensions)
    (henum : e.enumerate_extensions_native = .ok avail) :
    (XrExtensions.subset (cfg.required_exts backend) avail = false →
      e.create_instance cfg app_info exts layers backend =
        .error (XrError.UnavailableBackend backend))
    ∧ (∀ ni : NativeInstance,
        XrExtensions.subset (cfg.required_exts backend) avail = true →
        e.create_instance_native app_info
            (XrExtensions.union exts (cfg.required_exts backend)) layers =
          .ok ni →
        e.create_instance cfg app_info exts layers backend =
          .ok ⟨ni, backend, app_info⟩) := by
  constructor
  · intro hsub
    unfold XrEntry.create_instance
    simp [XrEntry.enumerate_extensions, henum, GraphicsBackend.is_available,
      hsub]
  · intro ni hsub hnative
    unfold XrEntry.create_instance
    simp [XrEntry.enumerate_extensions, henum, GraphicsBackend.is_available,
      hsub, hnative]

/-- Witness for C3: with required extensions `[extA]`, an entry enumerating
nothing rejects Vulkan with `UnavailableBackend`, and an entry enumerating
`extA` and `extB` creates a Vulkan-tagged instance. -/
theorem create_instance_availability_witness :
    wEntryNoAvail.create_instance wCfg wAppInfo ["extB"] [] .Vulkan =
        .error (XrError.UnavailableBackend .Vulkan)
    ∧ wEntryAvail.create_instance wCfg wAppInfo ["extB"] [] .Vulkan =
        .ok ⟨wNativeInstance, .Vulkan, wAppInfo⟩ :=
  ⟨(create_instance_availability wCfg wEntryNoAvail wAppInfo ["extB"] []
      .Vulkan [] rfl).1 (by decide),
   (create_instance_availability wCfg wEntryAvail wAppInfo ["extB"] []
      .Vulkan ["extA", "extB"] rfl).2 wNativeInstance (by decide) rfl⟩

/-- C4: on the success path (backend available), the extension set passed to
the native instance-creation call is exactly the union of the requested
extensions and the backend's required extensions: `create_instance` is the
native call at precisely that argument, its result re-tagged. -/
theorem create_instance_passes_extension_union (cfg : GraphicsConfig)
    (e : XrEntry) (app_info : AppInfo) (exts : XrExtensions)
    (layers : List String) (backend : GraphicsBackend) (avail : XrExtensions)
    (henum : e.enumerate_extensions_native = .ok avail)
    (hsub : XrExtensions.subset (cfg.required_exts backend) avail = true) :
    e.create_instance cfg app_info exts layers backend =
      (e.create_instance_native app_info
          (XrExtensions.union exts (cfg.required_exts backend)) layers).map
        (fun ni => XrInstance.mk ni backend app_info) := by
  unfold XrEntry.create_instance
  simp only [XrEntry.enumerate_extensions, henum,
    GraphicsBackend.is_available, hsub, Bool.not_true, Bool.false_eq_true,
    if_false]
  cases e.create_instance_native app_info
      (XrExtensions.union exts (cfg.required_exts backend)) layers with
  | error err => rfl
  | ok ni => rfl

/-- Witness for C4: on the available entry, `create_instance` with requested
`[extB]` equals the native call applied to `[extB] ∪ [extA]`. -/
theorem create_instance_passes_extension_union_witness :
    wEntryAvail.create_instance wCfg wAppInfo ["extB"] [] .Vulkan =
      (wEntryAvail.create_instance_native wAppInfo
          (XrExtensions.union ["extB"] (wCfg.required_exts .Vulkan)) []).map
        (fun ni => XrInstance.mk ni .Vulkan wAppInfo) :=
  create_instance_passes_extension_union wCfg wEntryAvail wAppInfo ["extB"]
    [] .Vulkan ["extA", "extB"] rfl (by decide)

/-- C7: `enumerate_swapchain_formats` maps the native session's supported
formats through the backend's native-to-engine format conversion, silently
dropping (via `filterMap`) every format without an engine-side equivalent;
the call succeeds whenever the native enumeration does, so a dropped format
never causes a failure. -/
theorem enumerate_swapchain_formats_drops_unknown (cfg : GraphicsConfig)
    (anyS : NativeSession) (b : GraphicsBackend) (session : NativeSession)
    (formats : List NativeFormat)
    (h : session.enumerate_swapchain_formats = .ok formats) :
    XrSession.enumerate_swapchain_formats cfg ⟨anyS, .wrap b session⟩ =
      .ok (formats.filterMap (cfg.to_wgpu_format b)) := by
  unfold XrSession.enumerate_swapchain_formats
  simp [h]

/-- Witness for C7: native formats `[5, 6]` where `5` has no engine-side
equivalent yield exactly `[106]`, with no error. -/
theorem enumerate_swapchain_formats_drops_unknown_witness :
    wNativeSession.enumerate_swapchain_formats = .ok [5, 6]
    ∧ XrSession.enumerate_swapchain_formats wCfg
        ⟨wNativeSession, .wrap .Vulkan wNativeSession⟩ = .ok [106] :=
  ⟨rfl,
   (by exact enumerate_swapchain_formats_drops_unknown wCfg wNativeSession
              GraphicsBackend.Vulkan wNativeSession [5, 6] rfl)⟩

/-- C9: a candidate layer reporting no backing swapchain undergoes no
backend check in `XrFrameStream::end`: whatever the stream's backend and
whatever surrounds it, its header is submitted to the native call at its
original position, and it contributes no warning. -/
theorem endFrame_no_swapchain_layer_included (b : GraphicsBackend)
    (stream : NativeFrameStream) (t : XrDisplayTime) (bm : BlendMode)
    (pre post : List CompositionLayer) (layer : CompositionLayer)
    (h : layer.swapchain = none) :
    ((XrFrameStream.mk (.wrap b stream)).endFrame t bm
        (pre ++ layer :: post)).2 =
      stream t bm ((pre.filter (layerCompatible b)).map (fun l => l.header) ++
        layer.header ::
          (post.filter (layerCompatible b)).map (fun l => l.header))
    ∧ ((XrFrameStream.mk (.wrap b stream)).endFrame t bm
        (pre ++ layer :: post)).1.length =
      (pre.filter (fun l => !(layerCompatible b l))).length +
        (post.filter (fun l => !(layerCompatible b l))).length := by
  have hcomp : layerCompatible b layer = true := by
    simp [layerCompatible, h]
  constructor
  · simp [XrFrameStream.endFrame, endLayerLoop_headers b _ 0,
      List.filter_append, List.filter_cons, hcomp]
  · simp [XrFrameStream.endFrame, endLayerLoop_warnings b _ 0,
      List.filter_append, List.filter_cons, hcomp]

/-- Witness for C9: on a Vulkan stream, a swapchain-less layer placed after
a foreign (D3D11-backed) layer is still submitted, alone, and exactly one
warning is recorded for the foreign layer. -/
theorem endFrame_no_swapchain_layer_included_witness :
    wLayerNone.swapchain = none
    ∧ ((XrFrameStream.mk (.wrap .Vulkan wStreamOk)).endFrame 0 0
        ([wLayerForeign] ++ wLayerNone :: [])).2 =
      wStreamOk 0 0
        (([wLayerForeign].filter (layerCompatible .Vulkan)).map
            (fun l => l.header) ++
          wLayerNone.header ::
            (([] : List CompositionLayer).filter
                (layerCompatible .Vulkan)).map (fun l => l.header))
    ∧ ((XrFrameStream.mk (.wrap .Vulkan wStreamOk)).endFrame 0 0
        ([wLayerForeign] ++ wLayerNone :: [])).1.length =
      ([wLayerForeign].filter
          (fun l => !(layerCompatible .Vulkan l))).length +
        (([] : List CompositionLayer).filter
            (fun l => !(layerCompatible .Vulkan l))).length :=
  ⟨rfl,
   (endFrame_no_swapchain_layer_included .Vulkan wStreamOk 0 0 [wLayerForeign]
      [] wLayerNone rfl).1,
   (endFrame_no_swapchain_layer_included .Vulkan wStreamOk 0 0 [wLayerForeign]
      [] wLayerNone rfl).2⟩

/-- Inversion of a successful `create_session`: the graphics info's tag had
to match the instance's backend, the native call was consulted at that
backend, and the returned session and frame stream are tagged with it. -/
theorem create_session_ok_inv (inst : XrInstance) (system_id : SystemId)
    (b : GraphicsBackend) (i : SessionCreateInfoOf b) (sess : XrSession)
    (fw : XrFrameWaiter) (fs : XrFrameStream)
    (h : inst.create_session system_id ⟨.wrap b i⟩ = .ok (sess, fw, fs)) :
    b = inst.backend
    ∧ ∃ ns nfw nfs, inst.native.create_session b system_id i = .ok (ns, nfw, nfs)
        ∧ sess = XrSession.ofNative b ns ∧ fs = ⟨.wrap b nfs⟩ := by
  unfold XrInstance.create_session at h
  by_cases hb : b = inst.backend
  · have hcond : (XrSessionGraphicsInfo.mk
        (GraphicsWrap.wrap b i)).val.using_graphics_of_val inst.backend
        = true := by
      simp [GraphicsWrap.using_graphics_of_val, GraphicsWrap.backend, hb]
    rw [hcond] at h
    simp only [Bool.not_true, Bool.false_eq_true, if_false] at h
    refine ⟨hb, ?_⟩
    cases hnat : inst.native.create_session b system_id i with
    | error err => rw [hnat] at h; exact absurd h (by simp)
    | ok res =>
      obtain ⟨ns, nfw, nfs⟩ := res
      rw [hnat] at h
      simp only [Except.ok.injEq, Prod.mk.injEq] at h
      exact ⟨ns, nfw, nfs, rfl, h.1.symm, h.2.2.symm⟩
  · have hcond : (XrSessionGraphicsInfo.mk
        (GraphicsWrap.wrap b i)).val.using_graphics_of_val inst.backend
        = false := by
      simp [GraphicsWrap.using_graphics_of_val, GraphicsWrap.backend, hb]
    rw [hcond] at h
    simp at h

/-- Inversion of a successful `create_swapchain`: the swapchain is tagged
with the session's backend. -/
theorem create_swapchain_ok_inv (cfg : GraphicsConfig) (anyS : NativeSession)
    (b : GraphicsBackend) (ns : NativeSession) (scinfo : SwapchainCreateInfo)
    (sw : XrSwapchain)
    (h : XrSession.create_swapchain cfg ⟨anyS, .wrap b ns⟩ scinfo = .ok sw) :
    ∃ sc, sw = ⟨.wrap b sc⟩ := by
  unfold XrSession.create_swapchain at h
  dsimp only at h
  cases hconv : cfg.swapchain_info_into b scinfo with
  | error err => rw [hconv] at h; exact absurd h (by simp)
  | ok ninfo =>
    rw [hconv] at h
    dsimp only at h
    cases hsc : ns.create_swapchain ninfo with
    | error err => rw [hsc] at h; exact absurd h (by simp)
    | ok sc =>
      rw [hsc] at h
      simp only [Except.ok.injEq] at h
      exact ⟨sc, h.symm⟩

/-- C5: every session, frame stream and swapchain created downstream of an
instance (through `create_session` and then `create_swapchain`) is tagged
with the creating instance's backend. -/
theorem downstream_objects_carry_instance_backend (inst : XrInstance)
    (system_id : SystemId) (info : XrSessionGraphicsInfo) (sess : XrSession)
    (fw : XrFrameWaiter) (fs : XrFrameStream) (cfg : GraphicsConfig)
    (scinfo : SwapchainCreateInfo) (sw : XrSwapchain)
    (hsess : inst.create_session system_id info = .ok (sess, fw, fs))
    (hsw : sess.create_swapchain cfg scinfo = .ok sw) :
    sess.wrap.backend = inst.backend
    ∧ fs.val.backend = inst.backend
    ∧ sw.val.backend = inst.backend := by
  obtain ⟨⟨b, i⟩⟩ := info
  obtain ⟨hb, ns, nfw, nfs, hnat, hsessEq, hfsEq⟩ :=
    create_session_ok_inv inst system_id b i sess fw fs hsess
  subst hsessEq
  subst hfsEq
  have hswEq := create_swapchain_ok_inv cfg ns b ns scinfo sw hsw
  obtain ⟨sc, hswEq⟩ := hswEq
  subst hswEq
  exact ⟨hb, hb, hb⟩

/-- Witness for C5: the Vulkan instance's session, frame stream and a
swapchain created from that session are all tagged Vulkan. -/
theorem downstream_objects_carry_instance_backend_witness :
    wSess.wrap.backend = wInstVulkan.backend
    ∧ wFrameStream.val.backend = wInstVulkan.backend
    ∧ wSwapIdle.val.backend = wInstVulkan.backend :=
  downstream_objects_carry_instance_backend wInstVulkan 0 wInfoVulkan wSess
    ⟨0⟩ wFrameStream wCfg 0 wSwapIdle rfl rfl

end BevyOxr
